import Mathlib

/-!
Verification of the ruthless layered-image translation engine against its
specification.  The decoder (src/btrfs_send.rs) is embedded as state-passing
functions over byte lists (`List Nat`, each byte < 256 where it matters); the
export materializer and importer (src/oci_image.rs, src/images.rs) are embedded
as explicit-state / trace functions.  Loops that the source expresses as
`while let` over iterators are realised with a fuel argument equal to the input
length plus one; consumption lemmas show the fuel never runs out, and clean
unfolding equations are derived for reasoning.
-/

deriving instance DecidableEq for Except

namespace Ruthless

/-- Big-endian byte encoding of a 16-bit value (wire helper for stating theorems). -/
def u16be (n : Nat) : List Nat := [n / 256 % 256, n % 256]

/-- Big-endian byte encoding of a 32-bit value. -/
def u32be (n : Nat) : List Nat :=
  [n / 16777216 % 256, n / 65536 % 256, n / 256 % 256, n % 256]

/-- Big-endian byte encoding of a 64-bit value. -/
def u64be (n : Nat) : List Nat :=
  [n / 72057594037927936 % 256, n / 281474976710656 % 256, n / 1099511627776 % 256,
   n / 4294967296 % 256, n / 16777216 % 256, n / 65536 % 256, n / 256 % 256, n % 256]

/-- The 13-byte magic constant heading every btrfs send stream. -/
def MAGIC_NUMBER : List Nat :=
  [0x62, 0x74, 0x72, 0x66, 0x73, 0x2d, 0x73, 0x74, 0x72, 0x65, 0x61, 0x6d, 0x00]

/-- Timespec as carried inside TLVs (u64 seconds, u32 nanoseconds). -/
structure Timespec where
  secs : Nat
  nsecs : Nat

deriving DecidableEq

/-- The TLV variants of src/btrfs_send.rs.  Paths, strings and blobs are byte
lists; PathBuf and String both keep the raw bytes of the wire value. -/
inductive BtrfsSendTlv where
  | Uuid (u : List Nat)
  | Transid (n : Nat)
  | Inode
  | Size (n : Nat)
  | Mode (n : Nat)
  | Uid (n : Nat)
  | Gid (n : Nat)
  | Rdev (n : Nat)
  | Ctime (t : Timespec)
  | Mtime (t : Timespec)
  | Atime (t : Timespec)
  | Otime (t : Timespec)
  | XattrName (s : List Nat)
  | XattrData (d : List Nat)
  | Path (p : List Nat)
  | PathTo (p : List Nat)
  | PathLink (p : List Nat)
  | Offset (n : Nat)
  | Data (d : List Nat)
  | CloneUuid (u : List Nat)
  | CloneCtransid (n : Nat)
  | ClonePath (p : List Nat)
  | CloneOffset (n : Nat)
  | CloneLength (n : Nat)

deriving DecidableEq

/-- The command variants of src/btrfs_send.rs. -/
inductive BtrfsSendCommand where
  | Subvol (p : List Nat) (u : List Nat) (ctransid : Nat)
  | Snapshot (p : List Nat) (u : List Nat) (ctransid : Nat) (cu : List Nat) (cct : Nat)
  | Mkfile (p : List Nat)
  | Mkdir (p : List Nat)
  | Mknod (p : List Nat) (mode : Nat) (rdev : Nat)
  | Mkfifo (p : List Nat)
  | Mksock (p : List Nat)
  | Symlink (p : List Nat) (q : List Nat)
  | Rename (p : List Nat) (q : List Nat)
  | Link (p : List Nat) (q : List Nat)
  | Unlink (p : List Nat)
  | Rmdir (p : List Nat)
  | SetXattr (p : List Nat) (name : List Nat) (data : List Nat)
  | RemoveXattr (p : List Nat) (name : List Nat)
  | Write (p : List Nat) (offset : Nat) (data : List Nat)
  | Clone (p : List Nat) (o : Nat) (len : Nat) (u : List Nat) (ct : Nat)
      (cp : List Nat) (co : Nat)
  | Truncate (p : List Nat) (size : Nat)
  | Chmod (p : List Nat) (mode : Nat)
  | Chown (p : List Nat) (uid : Nat) (gid : Nat)
  | Utimes (p : List Nat) (at_ : Timespec) (mt : Timespec) (ct : Timespec)
  | End
  | UpdateExtent (p : List Nat) (offset : Nat) (size : Nat)

deriving DecidableEq

/-- Decoded stream: the ordered command list (struct BtrfsSend). -/
structure BtrfsSend where
  commands : List BtrfsSendCommand

deriving DecidableEq

/-- Error enum of src/btrfs_send.rs (the source spells the first variant
InvalidChecksume; its fields are the declared and the computed checksum). -/
inductive BtrfsSendError where
  | InvalidChecksume (expected : Nat) (computed : Nat)
  | InvalidCommandType (t : Nat)
  | InvalidMagicNumber
  | InvalidTlvType (t : Nat)
  | NotEnoughBytesToParseU32
  | NotEnoughBytesToParseU16
  | UnexpectedLength (l : Nat)
  | WrongNumberOfTlvs (actual : Nat) (expected : Nat)
  | UnexpectedTlv

deriving DecidableEq

/-- parse_u64: reads 8 bytes big-endian; the source reuses the u32 error. -/
def parse_u64 : List Nat → Except BtrfsSendError (Nat × List Nat)
  | b0 :: b1 :: b2 :: b3 :: b4 :: b5 :: b6 :: b7 :: rest =>
      .ok ((((((((b0 * 256 + b1) * 256 + b2) * 256 + b3) * 256 + b4) * 256 + b5) * 256
        + b6) * 256 + b7), rest)
  | _ => .error .NotEnoughBytesToParseU32

/-- parse_u32: reads 4 bytes big-endian. -/
def parse_u32 : List Nat → Except BtrfsSendError (Nat × List Nat)
  | b0 :: b1 :: b2 :: b3 :: rest =>
      .ok (((b0 * 256 + b1) * 256 + b2) * 256 + b3, rest)
  | _ => .error .NotEnoughBytesToParseU32

/-- parse_u16: reads 2 bytes big-endian. -/
def parse_u16 : List Nat → Except BtrfsSendError (Nat × List Nat)
  | b0 :: b1 :: rest => .ok (b0 * 256 + b1, rest)
  | _ => .error .NotEnoughBytesToParseU16

/-- parse_data: takes `length` bytes, failing with UnexpectedLength when the
source runs out. -/
def parse_data (length : Nat) (source : List Nat) :
    Except BtrfsSendError (List Nat × List Nat) :=
  if length ≤ source.length then .ok (source.take length, source.drop length)
  else .error (.UnexpectedLength length)

/-- parse_uuid: takes 16 bytes, failing with UnexpectedLength 16. -/
def parse_uuid (source : List Nat) : Except BtrfsSendError (List Nat × List Nat) :=
  if 16 ≤ source.length then .ok (source.take 16, source.drop 16)
  else .error (.UnexpectedLength 16)

/-- parse_timespec: a u64 of seconds then a u32 of nanoseconds. -/
def parse_timespec (source : List Nat) :
    Except BtrfsSendError (Timespec × List Nat) := do
  let (secs, s1) ← parse_u64 source
  let (nsecs, s2) ← parse_u32 s1
  .ok (⟨secs, nsecs⟩, s2)

/-- parse_string keeps the raw bytes (the source uses from_utf8_unchecked). -/
def parse_string (length : Nat) (source : List Nat) :
    Except BtrfsSendError (List Nat × List Nat) :=
  parse_data length source

/-- parse_path is parse_string wrapped into a PathBuf. -/
def parse_path (length : Nat) (source : List Nat) :
    Except BtrfsSendError (List Nat × List Nat) :=
  parse_string length source

/-- parse_tlv: returns none at end of input, otherwise reads u16 tag, u16
length, and the tag-dependent value. -/
def parse_tlv (source : List Nat) :
    Except BtrfsSendError (Option (BtrfsSendTlv × List Nat)) :=
  if source.isEmpty then .ok none
  else do
    let (tlv_type, s1) ← parse_u16 source
    let (length, s2) ← parse_u16 s1
    match tlv_type with
    | 1 => do let (u, s3) ← parse_uuid s2; .ok (some (.Uuid u, s3))
    | 2 => do let (n, s3) ← parse_u64 s2; .ok (some (.Transid n, s3))
    | 3 => .ok (some (.Inode, s2))
    | 4 => do let (n, s3) ← parse_u64 s2; .ok (some (.Size n, s3))
    | 5 => do let (n, s3) ← parse_u64 s2; .ok (some (.Mode n, s3))
    | 6 => do let (n, s3) ← parse_u64 s2; .ok (some (.Uid n, s3))
    | 7 => do let (n, s3) ← parse_u64 s2; .ok (some (.Gid n, s3))
    | 8 => do let (n, s3) ← parse_u64 s2; .ok (some (.Rdev n, s3))
    | 9 => do let (t, s3) ← parse_timespec s2; .ok (some (.Ctime t, s3))
    | 10 => do let (t, s3) ← parse_timespec s2; .ok (some (.Mtime t, s3))
    | 11 => do let (t, s3) ← parse_timespec s2; .ok (some (.Atime t, s3))
    | 12 => do let (t, s3) ← parse_timespec s2; .ok (some (.Otime t, s3))
    | 13 => do let (s, s3) ← parse_string length s2; .ok (some (.XattrName s, s3))
    | 14 => do let (d, s3) ← parse_data length s2; .ok (some (.XattrData d, s3))
    | 15 => do let (p, s3) ← parse_path length s2; .ok (some (.Path p, s3))
    | 16 => do let (p, s3) ← parse_path length s2; .ok (some (.PathTo p, s3))
    | 17 => do let (p, s3) ← parse_path length s2; .ok (some (.PathLink p, s3))
    | 18 => do let (n, s3) ← parse_u64 s2; .ok (some (.Offset n, s3))
    | 19 => do let (d, s3) ← parse_data length s2; .ok (some (.Data d, s3))
    | 20 => do let (u, s3) ← parse_uuid s2; .ok (some (.CloneUuid u, s3))
    | 21 => do let (n, s3) ← parse_u64 s2; .ok (some (.CloneCtransid n, s3))
    | 22 => do let (p, s3) ← parse_path length s2; .ok (some (.ClonePath p, s3))
    | 23 => do let (n, s3) ← parse_u64 s2; .ok (some (.CloneOffset n, s3))
    | 24 => do let (n, s3) ← parse_u64 s2; .ok (some (.CloneLength n, s3))
    | _ => .error (.InvalidTlvType tlv_type)

/-- parse_tlvs loop body with fuel; the fuel-exhausted branch is unreachable
for the fuel parse_tlvs passes (parse_tlv consumes at least four bytes). -/
def parse_tlvs_go : Nat → List Nat → Except BtrfsSendError (List BtrfsSendTlv)
  | 0, _ => .ok []
  | fuel + 1, source =>
    match parse_tlv source with
    | .error e => .error e
    | .ok none => .ok []
    | .ok (some (t, rest)) =>
      match parse_tlvs_go fuel rest with
      | .error e => .error e
      | .ok ts => .ok (t :: ts)

/-- parse_tlvs: drains the payload into a TLV list. -/
def parse_tlvs (source : List Nat) : Except BtrfsSendError (List BtrfsSendTlv) :=
  parse_tlvs_go (source.length + 1) source

/-- parse_extent_command: expects 3 TLVs; note the source reads both the
offset and the size from tlvs[1]. -/
def parse_extent_command (tlvs : List BtrfsSendTlv) :
    Except BtrfsSendError BtrfsSendCommand :=
  match tlvs with
  | [t0, t1, _t2] => do
      let path ← match t0 with
        | .Path p => Except.ok p
        | _ => Except.error .UnexpectedTlv
      let offset ← match t1 with
        | .Offset o => Except.ok o
        | _ => Except.error .UnexpectedTlv
      let size ← match t1 with
        | .Size s => Except.ok s
        | _ => Except.error .UnexpectedTlv
      Except.ok (.UpdateExtent path offset size)
  | _ => .error (.WrongNumberOfTlvs tlvs.length 3)

/-- parse_utimes_command: [Path, Atime, Mtime, Ctime]. -/
def parse_utimes_command (tlvs : List BtrfsSendTlv) :
    Except BtrfsSendError BtrfsSendCommand :=
  match tlvs with
  | [t0, t1, t2, t3] => do
      let path ← match t0 with
        | .Path p => Except.ok p
        | _ => Except.error .UnexpectedTlv
      let atime ← match t1 with
        | .Atime a => Except.ok a
        | _ => Except.error .UnexpectedTlv
      let mtime ← match t2 with
        | .Mtime m => Except.ok m
        | _ => Except.error .UnexpectedTlv
      let ctime ← match t3 with
        | .Ctime c => Except.ok c
        | _ => Except.error .UnexpectedTlv
      Except.ok (.Utimes path atime mtime ctime)
  | _ => .error (.WrongNumberOfTlvs tlvs.length 4)

/-- parse_chown_command: [Path, Uid, Gid]. -/
def parse_chown_command (tlvs : List BtrfsSendTlv) :
    Except BtrfsSendError BtrfsSendCommand :=
  match tlvs with
  | [t0, t1, t2] => do
      let path ← match t0 with
        | .Path p => Except.ok p
        | _ => Except.error .UnexpectedTlv
      let uid ← match t1 with
        | .Uid u => Except.ok u
        | _ => Except.error .UnexpectedTlv
      let gid ← match t2 with
        | .Gid g => Except.ok g
        | _ => Except.error .UnexpectedTlv
      Except.ok (.Chown path uid gid)
  | _ => .error (.WrongNumberOfTlvs tlvs.length 3)

/-- parse_chmod_command: [Path, Mode]. -/
def parse_chmod_command (tlvs : List BtrfsSendTlv) :
    Except BtrfsSendError BtrfsSendCommand :=
  match tlvs with
  | [t0, t1] => do
      let path ← match t0 with
        | .Path p => Except.ok p
        | _ => Except.error .UnexpectedTlv
      let mode ← match t1 with
        | .Mode m => Except.ok m
        | _ => Except.error .UnexpectedTlv
      Except.ok (.Chmod path mode)
  | _ => .error (.WrongNumberOfTlvs tlvs.length 2)

/-- parse_truncate_command: [Path, Size]. -/
def parse_truncate_command (tlvs : List BtrfsSendTlv) :
    Except BtrfsSendError BtrfsSendCommand :=
  match tlvs with
  | [t0, t1] => do
      let path ← match t0 with
        | .Path p => Except.ok p
        | _ => Except.error .UnexpectedTlv
      let size ← match t1 with
        | .Size s => Except.ok s
        | _ => Except.error .UnexpectedTlv
      Except.ok (.Truncate path size)
  | _ => .error (.WrongNumberOfTlvs tlvs.length 2)

/-- parse_clone_command: 7 TLVs, positions 0-6. -/
def parse_clone_command (tlvs : List BtrfsSendTlv) :
    Except BtrfsSendError BtrfsSendCommand :=
  match tlvs with
  | [t0, t1, t2, t3, t4, t5, t6] => do
      let path ← match t0 with
        | .Path p => Except.ok p
        | _ => Except.error .UnexpectedTlv
      let offset ← match t1 with
        | .Offset o => Except.ok o
        | _ => Except.error .UnexpectedTlv
      let clone_len ← match t2 with
        | .CloneLength l => Except.ok l
        | _ => Except.error .UnexpectedTlv
      let clone_uuid ← match t3 with
        | .Uuid u => Except.ok u
        | _ => Except.error .UnexpectedTlv
      let clone_ctransid ← match t4 with
        | .CloneCtransid c => Except.ok c
        | _ => Except.error .UnexpectedTlv
      let clone_path ← match t5 with
        | .ClonePath p => Except.ok p
        | _ => Except.error .UnexpectedTlv
      let clone_offset ← match t6 with
        | .CloneOffset o => Except.ok o
        | _ => Except.error .UnexpectedTlv
      Except.ok (.Clone path offset clone_len clone_uuid clone_ctransid clone_path
        clone_offset)
  | _ => .error (.WrongNumberOfTlvs tlvs.length 7)

/-- parse_write_command: [Path, Offset, Data]. -/
def parse_write_command (tlvs : List BtrfsSendTlv) :
    Except BtrfsSendError BtrfsSendCommand :=
  match tlvs with
  | [t0, t1, t2] => do
      let path ← match t0 with
        | .Path p => Except.ok p
        | _ => Except.error .UnexpectedTlv
      let offset ← match t1 with
        | .Offset o => Except.ok o
        | _ => Except.error .UnexpectedTlv
      let data ← match t2 with
        | .Data d => Except.ok d
        | _ => Except.error .UnexpectedTlv
      Except.ok (.Write path offset data)
  | _ => .error (.WrongNumberOfTlvs tlvs.length 3)

/-- parse_rm_xattr_command: [Path, XattrName]. -/
def parse_rm_xattr_command (tlvs : List BtrfsSendTlv) :
    Except BtrfsSendError BtrfsSendCommand :=
  match tlvs with
  | [t0, t1] => do
      let path ← match t0 with
        | .Path p => Except.ok p
        | _ => Except.error .UnexpectedTlv
      let name ← match t1 with
        | .XattrName n => Except.ok n
        | _ => Except.error .UnexpectedTlv
      Except.ok (.RemoveXattr path name)
  | _ => .error (.WrongNumberOfTlvs tlvs.length 2)

/-- parse_set_xattr_command: [Path, XattrName, XattrData]. -/
def parse_set_xattr_command (tlvs : List BtrfsSendTlv) :
    Except BtrfsSendError BtrfsSendCommand :=
  match tlvs with
  | [t0, t1, t2] => do
      let path ← match t0 with
        | .Path p => Except.ok p
        | _ => Except.error .UnexpectedTlv
      let name ← match t1 with
        | .XattrName n => Except.ok n
        | _ => Except.error .UnexpectedTlv
      let data ← match t2 with
        | .XattrData d => Except.ok d
        | _ => Except.error .UnexpectedTlv
      Except.ok (.SetXattr path name data)
  | _ => .error (.WrongNumberOfTlvs tlvs.length 3)

/-- parse_rmdir_command: [Path]. -/
def parse_rmdir_command (tlvs : List BtrfsSendTlv) :
    Except BtrfsSendError BtrfsSendCommand :=
  match tlvs with
  | [t0] => do
      let path ← match t0 with
        | .Path p => Except.ok p
        | _ => Except.error .UnexpectedTlv
      Except.ok (.Rmdir path)
  | _ => .error (.WrongNumberOfTlvs tlvs.length 1)

/-- parse_unlink_command: [Path]. -/
def parse_unlink_command (tlvs : List BtrfsSendTlv) :
    Except BtrfsSendError BtrfsSendCommand :=
  match tlvs with
  | [t0] => do
      let path ← match t0 with
        | .Path p => Except.ok p
        | _ => Except.error .UnexpectedTlv
      Except.ok (.Unlink path)
  | _ => .error (.WrongNumberOfTlvs tlvs.length 1)

/-- parse_link_command: the source reads both the path and the link target
from tlvs[0]. -/
def parse_link_command (tlvs : List BtrfsSendTlv) :
    Except BtrfsSendError BtrfsSendCommand :=
  match tlvs with
  | [t0, _t1] => do
      let path ← match t0 with
        | .Path p => Except.ok p
        | _ => Except.error .UnexpectedTlv
      let path_link ← match t0 with
        | .PathLink p => Except.ok p
        | _ => Except.error .UnexpectedTlv
      Except.ok (.Link path path_link)
  | _ => .error (.WrongNumberOfTlvs tlvs.length 2)

/-- parse_rename_command: the source reads both the path and the rename
target from tlvs[0]. -/
def parse_rename_command (tlvs : List BtrfsSendTlv) :
    Except BtrfsSendError BtrfsSendCommand :=
  match tlvs with
  | [t0, _t1] => do
      let path ← match t0 with
        | .Path p => Except.ok p
        | _ => Except.error .UnexpectedTlv
      let path_to ← match t0 with
        | .PathTo p => Except.ok p
        | _ => Except.error .UnexpectedTlv
      Except.ok (.Rename path path_to)
  | _ => .error (.WrongNumberOfTlvs tlvs.length 2)

/-- parse_symlink_command: the source reads both the path and the link
target from tlvs[0]. -/
def parse_symlink_command (tlvs : List BtrfsSendTlv) :
    Except BtrfsSendError BtrfsSendCommand :=
  match tlvs with
  | [t0, _t1] => do
      let path ← match t0 with
        | .Path p => Except.ok p
        | _ => Except.error .UnexpectedTlv
      let path_link ← match t0 with
        | .PathLink p => Except.ok p
        | _ => Except.error .UnexpectedTlv
      Except.ok (.Symlink path path_link)
  | _ => .error (.WrongNumberOfTlvs tlvs.length 2)

/-- parse_mksock_command: [Path]. -/
def parse_mksock_command (tlvs : List BtrfsSendTlv) :
    Except BtrfsSendError BtrfsSendCommand :=
  match tlvs with
  | [t0] => do
      let path ← match t0 with
        | .Path p => Except.ok p
        | _ => Except.error .UnexpectedTlv
      Except.ok (.Mksock path)
  | _ => .error (.WrongNumberOfTlvs tlvs.length 1)

/-- parse_mkfifo_command: [Path]. -/
def parse_mkfifo_command (tlvs : List BtrfsSendTlv) :
    Except BtrfsSendError BtrfsSendCommand :=
  match tlvs with
  | [t0] => do
      let path ← match t0 with
        | .Path p => Except.ok p
        | _ => Except.error .UnexpectedTlv
      Except.ok (.Mkfifo path)
  | _ => .error (.WrongNumberOfTlvs tlvs.length 1)

/-- parse_mknod_command: [Path, Mode, Rdev]. -/
def parse_mknod_command (tlvs : List BtrfsSendTlv) :
    Except BtrfsSendError BtrfsSendCommand :=
  match tlvs with
  | [t0, t1, t2] => do
      let path ← match t0 with
        | .Path p => Except.ok p
        | _ => Except.error .UnexpectedTlv
      let mode ← match t1 with
        | .Mode m => Except.ok m
        | _ => Except.error .UnexpectedTlv
      let rdev ← match t2 with
        | .Rdev r => Except.ok r
        | _ => Except.error .UnexpectedTlv
      Except.ok (.Mknod path mode rdev)
  | _ => .error (.WrongNumberOfTlvs tlvs.length 3)

/-- parse_mkdir_command: [Path]. -/
def parse_mkdir_command (tlvs : List BtrfsSendTlv) :
    Except BtrfsSendError BtrfsSendCommand :=
  match tlvs with
  | [t0] => do
      let path ← match t0 with
        | .Path p => Except.ok p
        | _ => Except.error .UnexpectedTlv
      Except.ok (.Mkdir path)
  | _ => .error (.WrongNumberOfTlvs tlvs.length 1)

/-- parse_mkfile_command: [Path]. -/
def parse_mkfile_command (tlvs : List BtrfsSendTlv) :
    Except BtrfsSendError BtrfsSendCommand :=
  match tlvs with
  | [t0] => do
      let path ← match t0 with
        | .Path p => Except.ok p
        | _ => Except.error .UnexpectedTlv
      Except.ok (.Mkfile path)
  | _ => .error (.WrongNumberOfTlvs tlvs.length 1)

/-- parse_snapshot_command: 5 TLVs; the source expects CloneCtransid (tag 21)
at positions 2 and 4 and Uuid at positions 1 and 3. -/
def parse_snapshot_command (tlvs : List BtrfsSendTlv) :
    Except BtrfsSendError BtrfsSendCommand :=
  match tlvs with
  | [t0, t1, t2, t3, t4] => do
      let path ← match t0 with
        | .Path p => Except.ok p
        | _ => Except.error .UnexpectedTlv
      let uuid ← match t1 with
        | .Uuid u => Except.ok u
        | _ => Except.error .UnexpectedTlv
      let ctransid ← match t2 with
        | .CloneCtransid c => Except.ok c
        | _ => Except.error .UnexpectedTlv
      let clone_uuid ← match t3 with
        | .Uuid u => Except.ok u
        | _ => Except.error .UnexpectedTlv
      let clone_ctransid ← match t4 with
        | .CloneCtransid c => Except.ok c
        | _ => Except.error .UnexpectedTlv
      Except.ok (.Snapshot path uuid ctransid clone_uuid clone_ctransid)
  | _ => .error (.WrongNumberOfTlvs tlvs.length 5)

/-- parse_subvol_command: 3 TLVs; the source expects CloneCtransid (tag 21)
at position 2. -/
def parse_subvol_command (tlvs : List BtrfsSendTlv) :
    Except BtrfsSendError BtrfsSendCommand :=
  match tlvs with
  | [t0, t1, t2] => do
      let path ← match t0 with
        | .Path p => Except.ok p
        | _ => Except.error .UnexpectedTlv
      let uuid ← match t1 with
        | .Uuid u => Except.ok u
        | _ => Except.error .UnexpectedTlv
      let ctransid ← match t2 with
        | .CloneCtransid c => Except.ok c
        | _ => Except.error .UnexpectedTlv
      Except.ok (.Subvol path uuid ctransid)
  | _ => .error (.WrongNumberOfTlvs tlvs.length 3)

/-- parse_btrfs_type: parse the payload into TLVs, then dispatch on the
command-type code; type 21 (END) ignores the TLVs entirely. -/
def parse_btrfs_type (type_number : Nat) (data : List Nat) :
    Except BtrfsSendError BtrfsSendCommand := do
  let tlvs ← parse_tlvs data
  match type_number with
  | 1 => parse_subvol_command tlvs
  | 2 => parse_snapshot_command tlvs
  | 3 => parse_mkfile_command tlvs
  | 4 => parse_mkdir_command tlvs
  | 5 => parse_mknod_command tlvs
  | 6 => parse_mkfifo_command tlvs
  | 7 => parse_mksock_command tlvs
  | 8 => parse_symlink_command tlvs
  | 9 => parse_rename_command tlvs
  | 10 => parse_link_command tlvs
  | 11 => parse_unlink_command tlvs
  | 12 => parse_rmdir_command tlvs
  | 13 => parse_set_xattr_command tlvs
  | 14 => parse_rm_xattr_command tlvs
  | 15 => parse_write_command tlvs
  | 16 => parse_clone_command tlvs
  | 17 => parse_truncate_command tlvs
  | 18 => parse_chmod_command tlvs
  | 19 => parse_chown_command tlvs
  | 20 => parse_utimes_command tlvs
  | 21 => Except.ok .End
  | 22 => parse_extent_command tlvs
  | _ => Except.error (.InvalidCommandType type_number)

/-- parse_btrfs_command: one frame — u32 length, u16 type, u32 checksum,
`length` payload bytes, additive wrapping checksum check (release-mode u32
sum, i.e. modulo 2^32), then command assembly. -/
def parse_btrfs_command (source : List Nat) :
    Except BtrfsSendError (Option (BtrfsSendCommand × List Nat)) :=
  if source.isEmpty then .ok none
  else do
    let (length, s1) ← parse_u32 source
    let (type_number, s2) ← parse_u16 s1
    let (checksum, s3) ← parse_u32 s2
    let (data, s4) ← parse_data length s3
    let data_checksum := data.sum % 4294967296
    if data_checksum = checksum then
      (parse_btrfs_type type_number data).map (fun c => some (c, s4))
    else
      .error (.InvalidChecksume checksum data_checksum)

/-- Decode loop body with fuel (the while-let of the TryFrom impl); the
fuel-exhausted branch is unreachable for the fuel parse_commands passes
(each frame consumes at least ten bytes). -/
def parse_commands_go : Nat → List Nat → Except BtrfsSendError (List BtrfsSendCommand)
  | 0, _ => .ok []
  | fuel + 1, source =>
    match parse_btrfs_command source with
    | .error e => .error e
    | .ok none => .ok []
    | .ok (some (c, rest)) =>
      match parse_commands_go fuel rest with
      | .error e => .error e
      | .ok cs => .ok (c :: cs)

/-- The decode loop of the TryFrom impl: frames until the buffer is
exhausted. -/
def parse_commands (source : List Nat) : Except BtrfsSendError (List BtrfsSendCommand) :=
  parse_commands_go (source.length + 1) source

/-- parse_btrfs_header on the 17-byte prefix: the first 13 bytes must equal
the magic constant; the 4 version bytes are read and discarded. -/
def parse_btrfs_header (source : List Nat) : Except BtrfsSendError Unit :=
  if source.take 13 = MAGIC_NUMBER then .ok () else .error .InvalidMagicNumber

/-- TryFrom of Vec of u8 for BtrfsSend.  The source first takes the slice
source[0 .. 17]; on an input shorter than 17 bytes that slice operation
aborts the process (Rust index out of range), which the model renders as
`none`.  Otherwise the header is checked and the frame loop runs on the
bytes after the header. -/
def btrfs_send_try_from (source : List Nat) :
    Option (Except BtrfsSendError BtrfsSend) :=
  if source.length < 17 then none
  else some (do
    parse_btrfs_header (source.take 17)
    let commands ← parse_commands (source.drop 17)
    Except.ok { commands })

/-- Modelled from the spec: timespec wire value, 8-byte seconds then 4-byte
nanoseconds, both big-endian (spec section 3, TLV table). -/
def encode_timespec (t : Timespec) : List Nat :=
  u64be t.secs ++ u32be t.nsecs

/-- Modelled from the spec: TLV wire encoding — u16 type tag BE, u16 length
BE, then the value bytes (spec section 6, wire format; tag numbers from the
decode table). The repository contains no encoder: its streams come from the
btrfs kernel ioctl. -/
def encode_tlv : BtrfsSendTlv → List Nat
  | .Uuid u => u16be 1 ++ u16be u.length ++ u
  | .Transid n => u16be 2 ++ u16be 8 ++ u64be n
  | .Inode => u16be 3 ++ u16be 0
  | .Size n => u16be 4 ++ u16be 8 ++ u64be n
  | .Mode n => u16be 5 ++ u16be 8 ++ u64be n
  | .Uid n => u16be 6 ++ u16be 8 ++ u64be n
  | .Gid n => u16be 7 ++ u16be 8 ++ u64be n
  | .Rdev n => u16be 8 ++ u16be 8 ++ u64be n
  | .Ctime t => u16be 9 ++ u16be 12 ++ encode_timespec t
  | .Mtime t => u16be 10 ++ u16be 12 ++ encode_timespec t
  | .Atime t => u16be 11 ++ u16be 12 ++ encode_timespec t
  | .Otime t => u16be 12 ++ u16be 12 ++ encode_timespec t
  | .XattrName s => u16be 13 ++ u16be s.length ++ s
  | .XattrData d => u16be 14 ++ u16be d.length ++ d
  | .Path p => u16be 15 ++ u16be p.length ++ p
  | .PathTo p => u16be 16 ++ u16be p.length ++ p
  | .PathLink p => u16be 17 ++ u16be p.length ++ p
  | .Offset n => u16be 18 ++ u16be 8 ++ u64be n
  | .Data d => u16be 19 ++ u16be d.length ++ d
  | .CloneUuid u => u16be 20 ++ u16be u.length ++ u
  | .CloneCtransid n => u16be 21 ++ u16be 8 ++ u64be n
  | .ClonePath p => u16be 22 ++ u16be p.length ++ p
  | .CloneOffset n => u16be 23 ++ u16be 8 ++ u64be n
  | .CloneLength n => u16be 24 ++ u16be 8 ++ u64be n

/-- Modelled from the spec: command-type code of each command, the inverse of
the decoder dispatch table (spec sections 3 and 4.1). -/
def command_type_code : BtrfsSendCommand → Nat
  | .Subvol _ _ _ => 1
  | .Snapshot _ _ _ _ _ => 2
  | .Mkfile _ => 3
  | .Mkdir _ => 4
  | .Mknod _ _ _ => 5
  | .Mkfifo _ => 6
  | .Mksock _ => 7
  | .Symlink _ _ => 8
  | .Rename _ _ => 9
  | .Link _ _ => 10
  | .Unlink _ => 11
  | .Rmdir _ => 12
  | .SetXattr _ _ _ => 13
  | .RemoveXattr _ _ => 14
  | .Write _ _ _ => 15
  | .Clone _ _ _ _ _ _ _ => 16
  | .Truncate _ _ => 17
  | .Chmod _ _ => 18
  | .Chown _ _ _ => 19
  | .Utimes _ _ _ _ => 20
  | .End => 21
  | .UpdateExtent _ _ _ => 22

/-- Modelled from the spec: the fixed positional TLV list of each command
(spec sections 3 and 4.1; the claim names Rename = [Path, PathTo],
Symlink = [Path, PathLink], UpdateExtent = [Path, Offset, Size], and 4.1
names Write = [Path, Offset, Data]). -/
def command_tlvs : BtrfsSendCommand → List BtrfsSendTlv
  | .Subvol p u t => [.Path p, .Uuid u, .Transid t]
  | .Snapshot p u t cu ct => [.Path p, .Uuid u, .Transid t, .CloneUuid cu, .CloneCtransid ct]
  | .Mkfile p => [.Path p]
  | .Mkdir p => [.Path p]
  | .Mknod p m r => [.Path p, .Mode m, .Rdev r]
  | .Mkfifo p => [.Path p]
  | .Mksock p => [.Path p]
  | .Symlink p q => [.Path p, .PathLink q]
  | .Rename p q => [.Path p, .PathTo q]
  | .Link p q => [.Path p, .PathLink q]
  | .Unlink p => [.Path p]
  | .Rmdir p => [.Path p]
  | .SetXattr p n d => [.Path p, .XattrName n, .XattrData d]
  | .RemoveXattr p n => [.Path p, .XattrName n]
  | .Write p o d => [.Path p, .Offset o, .Data d]
  | .Clone p o l u ct cp co =>
      [.Path p, .Offset o, .CloneLength l, .Uuid u, .CloneCtransid ct, .ClonePath cp,
       .CloneOffset co]
  | .Truncate p s => [.Path p, .Size s]
  | .Chmod p m => [.Path p, .Mode m]
  | .Chown p u g => [.Path p, .Uid u, .Gid g]
  | .Utimes p a m c => [.Path p, .Atime a, .Mtime m, .Ctime c]
  | .End => []
  | .UpdateExtent p o s => [.Path p, .Offset o, .Size s]

/-- Modelled from the spec: one checksummed frame — u32 payload length BE,
u16 command-type BE, u32 additive wrapping checksum BE, payload (spec
sections 3 and 6). -/
def encode_command (c : BtrfsSendCommand) : List Nat :=
  let payload := ((command_tlvs c).map encode_tlv).join
  u32be payload.length ++ u16be (command_type_code c) ++
    u32be (payload.sum % 4294967296) ++ payload

/-- Modelled from the spec: a full stream — magic, version 1, then the
frames of the command sequence in order (spec sections 3 and 6). -/
def encode_stream (commands : List BtrfsSendCommand) : List Nat :=
  MAGIC_NUMBER ++ u32be 1 ++ (commands.map encode_command).join

/-!
Export materialization and import (src/oci_image.rs).  Filesystem work is
embedded two ways: the per-layer replay is a trace semantics (each syscall
the source performs is recorded as an action, in execution order), while the
Write syscall, whose byte-level behaviour claim C7 is about, is additionally
modelled statefully over an explicit file map.  The storage-backend calls
(btrfs ioctls behind get_image_info / send, std read_dir) are fields of the
repository model, per the storage-backend interface of spec sections 4.2/6.
-/

/-- Errors crossing the export pipeline (failure::Error is a dynamic error
type; the variants used by the modelled paths). -/
inductive OciError where
  | ioError (msg : String)
  | decode (e : BtrfsSendError)

deriving DecidableEq

/-- BtrfsSubvolInfo as the export path consumes it: the subvolume name and
the uuid / parent_uuid bytes, which the source converts to strings. -/
structure SubvolInfo where
  name : String
  uuid : String
  parentUuid : String

deriving DecidableEq

/-- ImageRepository as the export path consumes it: the backend operations
get_image_info (btrfs ioctl), send (pipe + btrfs_ioc_send + decode, per
get_btrfs_send) and std read_dir of a subvolume directory. -/
structure ImageRepositoryM where
  path : String
  get_image_info : String → Except OciError (Option SubvolInfo)
  send : String → Except OciError BtrfsSend
  read_dir : String → Except OciError (List String)

/-- get_btrfs_subvolume_stack loop body: push the info, follow parent_uuid.
The source loop has no cycle guard, so the model carries fuel; none models a
run that exhausts it (the source would still be looping). -/
def get_btrfs_subvolume_stack_go (repo : ImageRepositoryM) :
    Nat → String → List SubvolInfo → Option (Except OciError (List SubvolInfo))
  | 0, _, _ => none
  | fuel + 1, current_name, stack =>
    match repo.get_image_info current_name with
    | .error e => some (.error e)
    | .ok none => some (.ok stack)
    | .ok (some i) =>
        get_btrfs_subvolume_stack_go repo fuel i.parentUuid (stack ++ [i])

/-- get_btrfs_subvolume_stack: the named image first, then its parent, up to
the base; exactly the push order of the source loop. -/
def get_btrfs_subvolume_stack (repo : ImageRepositoryM) (name : String)
    (fuel : Nat) : Option (Except OciError (List SubvolInfo)) :=
  get_btrfs_subvolume_stack_go repo fuel name []

/-- One recorded filesystem action of the export replay: a std fs copy of
one directory entry into staging (from process_base_subvolume), or the
syscall of one replayed command (process_mkfile, process_mkdir, ...). -/
inductive ReplayAction where
  | copy (entry : String)
  | apply (c : BtrfsSendCommand)

deriving DecidableEq

/-- process_base_subvolume: read_dir of the subvolume's own directory under
the repository path, copying each entry towards the staging directory. -/
def process_base_subvolume (repo : ImageRepositoryM) (name : String) :
    Except OciError (List ReplayAction) :=
  (repo.read_dir name).map (fun entries => entries.map ReplayAction.copy)

/-- process_command: SNAPSHOT delegates to process_base_subvolume with the
same `name`; SUBVOL, END, CLONE and UPDATE_EXTENT do nothing; every other
command performs its one filesystem syscall, recorded as an apply action
(the per-syscall failure modes are modelled statefully for Write below). -/
def process_command (c : BtrfsSendCommand) (name : String)
    (repo : ImageRepositoryM) : Except OciError (List ReplayAction) :=
  match c with
  | .Snapshot _ _ _ _ _ => process_base_subvolume repo name
  | .Subvol _ _ _ => .ok []
  | .End => .ok []
  | .Clone _ _ _ _ _ _ _ => .ok []
  | .UpdateExtent _ _ _ => .ok []
  | c => .ok [.apply c]

/-- The layer files process_snapshot leaves in the staging directory: the
replay actions in order, and the parent field written into `json`
(VERSION and layer.tar are the fixed remainder). -/
structure LayerFiles where
  actions : List ReplayAction
  json_parent : Option String

deriving DecidableEq

/-- The for loop of process_snapshot: process every command in order,
aborting on the first error; the traces concatenate in command order. -/
def process_commands_all (repo : ImageRepositoryM) (name : String) :
    List BtrfsSendCommand → Except OciError (List ReplayAction)
  | [] => .ok []
  | c :: rest => do
      let t ← process_command c name repo
      let ts ← process_commands_all repo name rest
      Except.ok (t ++ ts)

/-- process_snapshot: replay every command in order, then write VERSION,
layer.tar and the json whose parent field is the passed parent. -/
def process_snapshot (snapshot : BtrfsSend) (name : String)
    (repo : ImageRepositoryM) (parent : Option String) :
    Except OciError LayerFiles :=
  (process_commands_all repo name snapshot.commands).map
    (fun actions => { actions := actions, json_parent := parent })

/-- is_subvolume predicate of the source. -/
def is_subvolume (c : BtrfsSendCommand) : Bool :=
  match c with
  | .Subvol _ _ _ => true
  | _ => false

/-- What process_subvolume produces for one layer: the snapshot branch
writes layer files; the base branch only copies the subvolume's directory
entries (writing no VERSION / layer.tar / json). -/
inductive SubvolumeOutput where
  | snapshotLayer (l : LayerFiles)
  | baseCopy (actions : List ReplayAction)

deriving DecidableEq

/-- process_subvolume: when no SUBVOL command is found in the transcript,
process_snapshot replays it; otherwise process_base_subvolume copies the
subvolume's own on-disk content. -/
def process_subvolume (volume : BtrfsSend) (name : String)
    (repo : ImageRepositoryM) (parent : Option String) :
    Except OciError SubvolumeOutput :=
  if (volume.commands.find? is_subvolume).isNone then
    (process_snapshot volume name repo parent).map .snapshotLayer
  else
    (process_base_subvolume repo name).map .baseCopy

/-- The export loop over the collected (uuid, volume) stack, threading the
mutable `parent` variable: parent starts None and becomes the previous
iteration's uuid. -/
def export_loop (repo : ImageRepositoryM) :
    List (String × BtrfsSend) → Option String →
    Except OciError (List (String × SubvolumeOutput))
  | [], _ => .ok []
  | (uuid, volume) :: rest, parent => do
      let out ← process_subvolume volume uuid repo parent
      let more ← export_loop repo rest (some uuid)
      Except.ok ((uuid, out) :: more)

/-- The collect over the stack: pair every subvolume's uuid with its sent
and decoded stream, aborting on the first send/decode error. -/
def collect_sends (repo : ImageRepositoryM) :
    List SubvolInfo → Except OciError (List (String × BtrfsSend))
  | [] => .ok []
  | i :: rest => do
      let v ← (repo.send i.name).map (fun v => (i.uuid, v))
      let more ← collect_sends repo rest
      Except.ok (v :: more)

/-- export: collect the subvolume stack (named image first), send and decode
each, then materialize each layer in stack order.  (export is a Lean
keyword, hence the `_image` suffix.) -/
def export_image (repo : ImageRepositoryM) (name : String) (fuel : Nat) :
    Option (Except OciError (List (String × SubvolumeOutput))) :=
  match get_btrfs_subvolume_stack repo name fuel with
  | none => none
  | some (.error e) => some (.error e)
  | some (.ok infos) =>
      some (do
        let stack ← collect_sends repo infos
        export_loop repo stack none)

/-- The expected per-command replay trace, used to state what the snapshot
branch stages: SNAPSHOT copies the named subvolume's own directory entries,
the no-op commands stage nothing, every other command stages its syscall. -/
def replay_trace (entries : List String) (c : BtrfsSendCommand) :
    List ReplayAction :=
  match c with
  | .Snapshot _ _ _ _ _ => entries.map ReplayAction.copy
  | .Subvol _ _ _ => []
  | .End => []
  | .Clone _ _ _ _ _ _ _ => []
  | .UpdateExtent _ _ _ => []
  | c => [.apply c]

/-- Access mode of an open file descriptor: File open in std fs opens
read-only, File create opens for writing. -/
inductive FileMode where
  | readOnly
  | writeOnly

deriving DecidableEq

/-- An open file handle (path plus access mode, position 0 when opened). -/
structure FileHandle where
  fpath : List Nat
  mode : FileMode

deriving DecidableEq

/-- A flat file map: path bytes to content bytes. -/
structure Fs where
  files : List (List Nat × List Nat)

deriving DecidableEq

/-- Look a path up in the file map. -/
def Fs.lookup (fs : Fs) (p : List Nat) : Option (List Nat) :=
  (fs.files.find? (fun e => e.1 = p)).map Prod.snd

/-- Store content at a path, replacing any existing entry. -/
def Fs.store (fs : Fs) (p : List Nat) (content : List Nat) : Fs :=
  { files := (p, content) :: fs.files.filter (fun e => ¬ e.1 = p) }

/-- Errors of the modelled std file operations (errno values). -/
inductive IoError where
  | notFound
  | badFileDescriptor

deriving DecidableEq

/-- PathBuf join of the staging directory and a command's relative path
(47 is the path separator byte). -/
def path_join_bytes (work_bench local_path : List Nat) : List Nat :=
  work_bench ++ [47] ++ local_path

/-- File open of std fs: succeeds on an existing file and yields a
read-only descriptor. -/
def file_open (fs : Fs) (p : List Nat) : Except IoError FileHandle :=
  if (fs.lookup p).isSome then .ok { fpath := p, mode := .readOnly }
  else .error .notFound

/-- write(2) through a handle at position 0: EBADF on a read-only
descriptor, otherwise overwrite from the start of the file. -/
def handle_write (fs : Fs) (h : FileHandle) (data : List Nat) :
    Except IoError Fs :=
  match h.mode with
  | .readOnly => .error .badFileDescriptor
  | .writeOnly =>
      match fs.lookup h.fpath with
      | none => .error .notFound
      | some old => .ok (fs.store h.fpath (data ++ old.drop data.length))

/-- process_write of the source: join the paths, File open (read-only), then
write the data.  The command's offset is not a parameter: the WRITE arm of
process_command passes only the path and the data. -/
def process_write (fs : Fs) (local_path work_bench : List Nat)
    (data : List Nat) : Except IoError Fs := do
  let file ← file_open fs (path_join_bytes work_bench local_path)
  handle_write fs file data

/-- Modelled from the spec: the claimed Write replay semantics — the data
bytes land at the given offset of the existing file, bytes outside the
written range unchanged (a gap past the end is zero-filled, as seek then
write does). -/
def write_at (content : List Nat) (offset : Nat) (data : List Nat) : List Nat :=
  (content.take offset ++ List.replicate (offset - content.length) 0) ++
    data ++ content.drop (offset + data.length)

/-!
Import (src/oci_image.rs): recover_from_eexist and import_from_layer_stack.
The repository operations create_image_from_path / create_layer_for_image
(btrfs ioctls plus tar unpacking) are fields of an environment model.
-/

/-- Errors crossing the import pipeline: a nix SyscallError of a given errno
(the only shape recover_from_eexist's downcast accepts), any other failure,
and the OCIImageError variants of the modelled paths. -/
inductive ImportError where
  | sys (errno : Nat)
  | other (msg : String)
  | layerHasNoName
  | noLayers

deriving DecidableEq

/-- EEXIST errno. -/
def EEXIST : Nat := 17

/-- recover_from_eexist: a SyscallError Sys EEXIST becomes Ok, every other
error propagates. -/
def recover_from_eexist : Except ImportError Unit → Except ImportError Unit
  | .ok _ => .ok ()
  | .error e => if e = .sys EEXIST then .ok () else .error e

/-- The repository operations import_from_layer_stack invokes; paths are
component lists rooted at the unpacked tar directory. -/
structure ImportEnv where
  create_image_from_path : String → List String → Except ImportError Unit
  create_layer_for_image : String → String → List String → Except ImportError Unit

/-- layer_name: the container name once the stack is exhausted, otherwise
the layer path's file name. -/
def layer_name (container_name : String) (layer : List String)
    (pending_layers : List String) : Except ImportError String :=
  if pending_layers.isEmpty then .ok container_name
  else
    match layer.getLast? with
    | some n => .ok n
    | none => .error .layerHasNoName

/-- The while-let pop loop of import_from_layer_stack, on the layers in pop
order; returns the names created, in creation order. -/
def import_go (env : ImportEnv) (container_name : String) :
    List String → String → Except ImportError (List String)
  | [], _ => .ok []
  | layer :: rest, last_layer_processed => do
      let new_layer_name ← layer_name container_name [layer] rest
      recover_from_eexist (env.create_layer_for_image new_layer_name
        last_layer_processed [layer, "layer.tar"])
      let more ← import_go env container_name rest new_layer_name
      Except.ok (new_layer_name :: more)

/-- import_from_layer_stack: pop the first layer (the Vec pops from its
end, hence the reverse), create the base image from its tar behind
recover_from_eexist, then loop over the remaining layers. -/
def import_from_layer_stack (env : ImportEnv) (container_name : String)
    (layer_stack : List String) : Except ImportError (List String) :=
  match layer_stack.reverse with
  | [] => .error .noLayers
  | first :: rest => do
      let first_name ← layer_name container_name [first] rest
      recover_from_eexist (env.create_image_from_path first_name
        [first, "layer.tar"])
      let more ← import_go env container_name rest first_name
      Except.ok (first_name :: more)

/-!
Layer application with whiteout semantics (src/images.rs): the destination
snapshot is a flat tree of paths (component lists) tagged file or directory,
and the tar entries are partitioned into three queues before application.
-/

/-- Character-level model of str replace of the pattern ".wh." by the empty
string: scan left to right, removing each non-overlapping occurrence (String
replace of the std library, which the kernel cannot evaluate, is replaced by
this structural equivalent). -/
def strip_wh : List Char → List Char
  | '.' :: 'w' :: 'h' :: '.' :: rest => strip_wh rest
  | c :: rest => c :: strip_wh rest
  | [] => []

/-- Kind of a tree node on the destination. -/
inductive NodeKind where
  | file
  | directory

deriving DecidableEq

/-- A tar entry of a layer: its path components and the node kind it
unpacks to. -/
structure TarEntry where
  epath : List String
  kind : NodeKind

deriving DecidableEq

/-- The destination snapshot: every existing path with its kind. -/
structure DirFs where
  entries : List (List String × NodeKind)

deriving DecidableEq

/-- Errors of the modelled layer application: nix/std syscall errno, and the
ImageError variants of the modelled paths. -/
inductive ImgError where
  | sys (errno : Nat)
  | noNamePath
  | noParentPath

deriving DecidableEq

/-- ENOENT errno. -/
def ENOENT : Nat := 2

/-- ENOTDIR errno. -/
def ENOTDIR : Nat := 20

/-- EISDIR errno. -/
def EISDIR : Nat := 21

/-- Kind of the node at a path, none when absent. -/
def DirFs.kind (fs : DirFs) (p : List String) : Option NodeKind :=
  (fs.entries.find? (fun e => decide (e.1 = p))).map Prod.snd

/-- read_dir of std fs: the immediate children of a directory, in entry
order; ENOENT when the directory is absent, ENOTDIR on a file.  The empty
path is the destination snapshot root, which exists by construction. -/
def DirFs.fs_read_dir (fs : DirFs) (d : List String) :
    Except ImgError (List (List String)) :=
  let children :=
    (fs.entries.filter (fun e => decide (e.1 ≠ [] ∧ e.1.dropLast = d))).map Prod.fst
  match d with
  | [] => .ok children
  | _ =>
      match fs.kind d with
      | some .directory => .ok children
      | some .file => .error (.sys ENOTDIR)
      | none => .error (.sys ENOENT)

/-- remove_file of std fs: ENOENT when absent, EISDIR on a directory. -/
def remove_file (fs : DirFs) (p : List String) : Except ImgError DirFs :=
  match fs.kind p with
  | none => .error (.sys ENOENT)
  | some .directory => .error (.sys EISDIR)
  | some .file => .ok { entries := fs.entries.filter (fun e => decide (e.1 ≠ p)) }

/-- remove_dir_all of std fs: removes the directory and everything below. -/
def remove_dir_all (fs : DirFs) (p : List String) : Except ImgError DirFs :=
  match fs.kind p with
  | none => .error (.sys ENOENT)
  | some .file => .error (.sys ENOTDIR)
  | some .directory =>
      .ok { entries := fs.entries.filter (fun e => decide (¬ p.isPrefixOf e.1)) }

/-- Unpacking one tar entry onto the destination: the entry's node replaces
whatever was at that path. -/
def DirFs.unpack (fs : DirFs) (p : List String) (kind : NodeKind) : DirFs :=
  { entries := (p, kind) :: fs.entries.filter (fun e => decide (e.1 ≠ p)) }

/-- create_steps_queues: partition the tar entries, in order, on the entry
file name — the opaque marker name, the single-whiteout prefix, or a
modification. -/
def create_steps_queues :
    List TarEntry → Except ImgError (List TarEntry × List TarEntry × List TarEntry)
  | [] => .ok ([], [], [])
  | e :: rest => do
      let entry_name ← match e.epath.getLast? with
        | some n => Except.ok n
        | none => Except.error .noNamePath
      let (opaque_whiteouts, whiteouts, modifications) ← create_steps_queues rest
      if entry_name = ".wh..wh..opq" then
        Except.ok (e :: opaque_whiteouts, whiteouts, modifications)
      else if (".wh.".data).isPrefixOf entry_name.data then
        Except.ok (opaque_whiteouts, e :: whiteouts, modifications)
      else
        Except.ok (opaque_whiteouts, whiteouts, e :: modifications)

/-- The inner removal loop of apply_opaque_whiteouts: remove_file on every
listed entry (the source does not branch on the entry's kind here). -/
def remove_each : List (List String) → DirFs → Except ImgError DirFs
  | [], fs => .ok fs
  | p :: rest, fs => do
      let fs2 ← remove_file fs p
      remove_each rest fs2

/-- apply_opaque_whiteouts: for every marker, remove_file every entry of the
marker's parent directory on the destination. -/
def apply_opaque_whiteouts :
    List TarEntry → DirFs → List String → Except ImgError DirFs
  | [], fs, _ => .ok fs
  | o :: rest, fs, snapshot_path => do
      let parent ← match o.epath with
        | [] => Except.error .noParentPath
        | _ => Except.ok o.epath.dropLast
      let dir := snapshot_path ++ parent
      let children ← fs.fs_read_dir dir
      let fs2 ← remove_each children fs
      apply_opaque_whiteouts rest fs2 snapshot_path

/-- apply_whiteouts: each single whiteout removes the like-named sibling —
remove_dir_all when it is a directory, remove_file otherwise. -/
def apply_whiteouts :
    List TarEntry → DirFs → List String → Except ImgError DirFs
  | [], fs, _ => .ok fs
  | w :: rest, fs, snapshot_path => do
      let file_name ← match w.epath.getLast? with
        | some n => Except.ok n
        | none => Except.error .noNamePath
      let target := snapshot_path ++ w.epath.dropLast ++
        [String.mk (strip_wh file_name.data)]
      let fs2 ← if fs.kind target = some .directory then remove_dir_all fs target
                else remove_file fs target
      apply_whiteouts rest fs2 snapshot_path

/-- apply_modifications: unpack every modification entry onto the
destination, in order. -/
def apply_modifications :
    List TarEntry → DirFs → List String → Except ImgError DirFs
  | [], fs, _ => .ok fs
  | m :: rest, fs, snapshot_path =>
      apply_modifications rest (fs.unpack (snapshot_path ++ m.epath) m.kind)
        snapshot_path

/-- from_layer_to_snapshot: partition, then all opaque whiteouts, then all
single whiteouts, then all modifications. -/
def from_layer_to_snapshot (layer : List TarEntry) (snapshot_path : List String)
    (fs : DirFs) : Except ImgError DirFs := do
  let (opaque_whiteouts, whiteouts, modifications) ← create_steps_queues layer
  let fs1 ← apply_opaque_whiteouts opaque_whiteouts fs snapshot_path
  let fs2 ← apply_whiteouts whiteouts fs1 snapshot_path
  apply_modifications modifications fs2 snapshot_path

/-- Environment whose create and snapshot steps always report EEXIST. -/
def env_all_eexist : ImportEnv :=
  { create_image_from_path := fun _ _ => .error (.sys EEXIST),
    create_layer_for_image := fun _ _ _ => .error (.sys EEXIST) }

/-- Environment whose create step reports a non-EEXIST failure. -/
def env_denied : ImportEnv :=
  { create_image_from_path := fun _ _ => .error (.other "denied"),
    create_layer_for_image := fun _ _ _ => .error (.other "denied") }

/-- A concrete two-entry repository directory for the C2 instances. -/
def repo_c2 : ImageRepositoryM :=
  { path := "repo",
    get_image_info := fun _ => .ok none,
    send := fun _ => .error (.ioError "unused"),
    read_dir := fun n => if n = "vol" then .ok ["e1", "e2"]
      else .error (.ioError "missing") }

/-- A two-layer lineage: the named image "child" (uuid cu) above "base"
(uuid bu). -/
def info_child : SubvolInfo :=
  { name := "child", uuid := "cu", parentUuid := "base" }

/-- The parentless base of the C3 instance. -/
def info_base : SubvolInfo :=
  { name := "base", uuid := "bu", parentUuid := "" }

/-- Repository with the child-over-base chain; each transcript is a single
Mkfile command. -/
def repo_c3 : ImageRepositoryM :=
  { path := "repo",
    get_image_info := fun n =>
      if n = "child" then .ok (some info_child)
      else if n = "base" then .ok (some info_base)
      else .ok none,
    send := fun n =>
      if n = "child" then .ok ⟨[.Mkfile [99]]⟩
      else if n = "base" then .ok ⟨[.Mkfile [98]]⟩
      else .error (.ioError "missing"),
    read_dir := fun _ => .ok [] }

theorem parse_u64_length {s : List Nat} {n : Nat} {r : List Nat}
    (h : parse_u64 s = .ok (n, r)) : r.length + 8 = s.length := by
  match s with
  | b0 :: b1 :: b2 :: b3 :: b4 :: b5 :: b6 :: b7 :: rest =>
      simp [parse_u64] at h
      simp [← h.2]
  | [] | [_] | [_,_] | [_,_,_] | [_,_,_,_] | [_,_,_,_,_] | [_,_,_,_,_,_]
  | [_,_,_,_,_,_,_] => simp [parse_u64] at h

theorem parse_u32_length {s : List Nat} {n : Nat} {r : List Nat}
    (h : parse_u32 s = .ok (n, r)) : r.length + 4 = s.length := by
  match s with
  | b0 :: b1 :: b2 :: b3 :: rest =>
      simp [parse_u32] at h
      simp [← h.2]
  | [] | [_] | [_,_] | [_,_,_] => simp [parse_u32] at h

theorem parse_u16_length {s : List Nat} {n : Nat} {r : List Nat}
    (h : parse_u16 s = .ok (n, r)) : r.length + 2 = s.length := by
  match s with
  | b0 :: b1 :: rest =>
      simp [parse_u16] at h
      simp [← h.2]
  | [] | [_] => simp [parse_u16] at h

theorem parse_data_length {L : Nat} {s d r : List Nat}
    (h : parse_data L s = .ok (d, r)) :
    r.length + L = s.length ∧ d.length = L := by
  simp only [parse_data] at h
  split at h
  · cases h
    constructor
    · simp; omega
    · simp; omega
  · cases h

theorem parse_uuid_length {s d r : List Nat}
    (h : parse_uuid s = .ok (d, r)) : r.length + 16 = s.length := by
  simp only [parse_uuid] at h
  split at h
  · cases h
    simp
    omega
  · cases h

theorem parse_timespec_length {s : List Nat} {t : Timespec} {r : List Nat}
    (h : parse_timespec s = .ok (t, r)) : r.length + 12 = s.length := by
  simp only [parse_timespec, bind, Except.bind] at h
  cases h64 : parse_u64 s with
  | error e => simp [h64] at h
  | ok v =>
      obtain ⟨secs, s1⟩ := v
      simp only [h64] at h
      cases h32 : parse_u32 s1 with
      | error e => simp [h32] at h
      | ok w =>
          obtain ⟨nsecs, s2⟩ := w
          simp only [h32, pure, Except.pure, Except.ok.injEq, Prod.mk.injEq] at h
          have e1 := parse_u64_length h64
          have e2 := parse_u32_length h32
          rw [← h.2]
          omega

theorem parse_u64_snd_length {s : List Nat} {v : Nat × List Nat}
    (h : parse_u64 s = .ok v) : v.2.length + 8 = s.length := by
  obtain ⟨n, r⟩ := v
  exact parse_u64_length h

theorem parse_u32_snd_length {s : List Nat} {v : Nat × List Nat}
    (h : parse_u32 s = .ok v) : v.2.length + 4 = s.length := by
  obtain ⟨n, r⟩ := v
  exact parse_u32_length h

theorem parse_uuid_snd_length {s : List Nat} {v : List Nat × List Nat}
    (h : parse_uuid s = .ok v) : v.2.length + 16 = s.length := by
  obtain ⟨d, r⟩ := v
  exact parse_uuid_length h

theorem parse_timespec_snd_length {s : List Nat} {v : Timespec × List Nat}
    (h : parse_timespec s = .ok v) : v.2.length + 12 = s.length := by
  obtain ⟨t, r⟩ := v
  exact parse_timespec_length h

theorem parse_data_snd_length {L : Nat} {s : List Nat} {v : List Nat × List Nat}
    (h : parse_data L s = .ok v) : v.2.length + L = s.length := by
  obtain ⟨d, r⟩ := v
  exact (parse_data_length h).1

theorem parse_string_snd_length {L : Nat} {s : List Nat} {v : List Nat × List Nat}
    (h : parse_string L s = .ok v) : v.2.length + L = s.length :=
  parse_data_snd_length h

theorem parse_path_snd_length {L : Nat} {s : List Nat} {v : List Nat × List Nat}
    (h : parse_path L s = .ok v) : v.2.length + L = s.length :=
  parse_data_snd_length h

theorem parse_tlv_consumes {s : List Nat} {t : BtrfsSendTlv} {r : List Nat}
    (h : parse_tlv s = .ok (some (t, r))) : r.length + 4 ≤ s.length := by
  simp only [parse_tlv] at h
  split at h
  · cases h
  · simp only [bind, Except.bind] at h
    cases h16a : parse_u16 s with
    | error e => simp [h16a] at h
    | ok v =>
        obtain ⟨tlv_type, s1⟩ := v
        simp only [h16a] at h
        cases h16b : parse_u16 s1 with
        | error e => simp [h16b] at h
        | ok w =>
            obtain ⟨length, s2⟩ := w
            simp only [h16b] at h
            have e1 := parse_u16_length h16a
            have e2 := parse_u16_length h16b
            split at h
            all_goals try (split at h)
            all_goals try (cases h)
            all_goals
              first
              | omega
              | (have hlen2 := parse_u64_snd_length (by assumption); omega)
              | (have hlen2 := parse_u32_snd_length (by assumption); omega)
              | (have hlen2 := parse_uuid_snd_length (by assumption); omega)
              | (have hlen2 := parse_timespec_snd_length (by assumption); omega)
              | (have hlen2 := parse_data_snd_length (by assumption); omega)
              | (have hlen2 := parse_string_snd_length (by assumption); omega)
              | (have hlen2 := parse_path_snd_length (by assumption); omega)

theorem parse_tlvs_go_fuel :
    ∀ f g s, s.length < f → s.length < g → parse_tlvs_go f s = parse_tlvs_go g s := by
  intro f
  induction f with
  | zero => intro g s hf; omega
  | succ f ih =>
      intro g s hf hg
      match g, hg with
      | g + 1, _ =>
        show parse_tlvs_go (f + 1) s = parse_tlvs_go (g + 1) s
        simp only [parse_tlvs_go]
        cases ht : parse_tlv s with
        | error e => rfl
        | ok v =>
            cases v with
            | none => rfl
            | some p =>
                obtain ⟨t, rest⟩ := p
                have hc := parse_tlv_consumes ht
                dsimp only
                rw [ih g rest (by omega) (by omega)]

theorem parse_tlvs_eq (source : List Nat) :
    parse_tlvs source =
      match parse_tlv source with
      | .error e => .error e
      | .ok none => .ok []
      | .ok (some (t, rest)) =>
        match parse_tlvs rest with
        | .error e => .error e
        | .ok ts => .ok (t :: ts) := by
  show parse_tlvs_go (source.length + 1) source = _
  simp only [parse_tlvs_go]
  cases ht : parse_tlv source with
  | error e => rfl
  | ok v =>
      cases v with
      | none => rfl
      | some p =>
          obtain ⟨t, rest⟩ := p
          have hc := parse_tlv_consumes ht
          dsimp only
          rw [parse_tlvs_go_fuel source.length (rest.length + 1) rest (by omega) (by omega)]
          rfl

theorem parse_btrfs_command_consumes {s : List Nat} {c : BtrfsSendCommand}
    {r : List Nat} (h : parse_btrfs_command s = .ok (some (c, r))) :
    r.length < s.length := by
  simp only [parse_btrfs_command] at h
  split at h
  · cases h
  · rename_i hne
    simp only [bind, Except.bind] at h
    cases h1 : parse_u32 s with
    | error e => simp [h1] at h
    | ok v1 =>
        obtain ⟨length, s1⟩ := v1
        simp only [h1] at h
        cases h2 : parse_u16 s1 with
        | error e => simp [h2] at h
        | ok v2 =>
            obtain ⟨type_number, s2⟩ := v2
            simp only [h2] at h
            cases h3 : parse_u32 s2 with
            | error e => simp [h3] at h
            | ok v3 =>
                obtain ⟨checksum, s3⟩ := v3
                simp only [h3] at h
                cases h4 : parse_data length s3 with
                | error e => simp [h4] at h
                | ok v4 =>
                    obtain ⟨data, s4⟩ := v4
                    simp only [h4] at h
                    have e1 := parse_u32_length h1
                    have e2 := parse_u16_length h2
                    have e3 := parse_u32_length h3
                    have e4 := (parse_data_length h4).1
                    split at h
                    · simp only [Except.map] at h
                      split at h
                      · cases h
                      · rename_i heq
                        cases h
                        omega
                    · cases h

theorem parse_commands_go_fuel :
    ∀ f g s, s.length < f → s.length < g →
      parse_commands_go f s = parse_commands_go g s := by
  intro f
  induction f with
  | zero => intro g s hf; omega
  | succ f ih =>
      intro g s hf hg
      match g, hg with
      | g + 1, _ =>
        show parse_commands_go (f + 1) s = parse_commands_go (g + 1) s
        simp only [parse_commands_go]
        cases ht : parse_btrfs_command s with
        | error e => rfl
        | ok v =>
            cases v with
            | none => rfl
            | some p =>
                obtain ⟨c, rest⟩ := p
                have hc := parse_btrfs_command_consumes ht
                dsimp only
                rw [ih g rest (by omega) (by omega)]

theorem parse_commands_eq (source : List Nat) :
    parse_commands source =
      match parse_btrfs_command source with
      | .error e => .error e
      | .ok none => .ok []
      | .ok (some (c, rest)) =>
        match parse_commands rest with
        | .error e => .error e
        | .ok cs => .ok (c :: cs) := by
  show parse_commands_go (source.length + 1) source = _
  simp only [parse_commands_go]
  cases ht : parse_btrfs_command source with
  | error e => rfl
  | ok v =>
      cases v with
      | none => rfl
      | some p =>
          obtain ⟨c, rest⟩ := p
          have hc := parse_btrfs_command_consumes ht
          dsimp only
          rw [parse_commands_go_fuel source.length (rest.length + 1) rest (by omega) (by omega)]
          rfl

theorem parse_u32_u32be (n : Nat) (rest : List Nat) (h : n < 4294967296) :
    parse_u32 (u32be n ++ rest) = .ok (n, rest) := by
  simp only [u32be, List.cons_append, List.nil_append, parse_u32]
  have e : ((n / 16777216 % 256 * 256 + n / 65536 % 256) * 256 + n / 256 % 256) * 256
      + n % 256 = n := by omega
  rw [e]

theorem parse_u16_u16be (n : Nat) (rest : List Nat) (h : n < 65536) :
    parse_u16 (u16be n ++ rest) = .ok (n, rest) := by
  simp only [u16be, List.cons_append, List.nil_append, parse_u16]
  have e : n / 256 % 256 * 256 + n % 256 = n := by omega
  rw [e]

theorem parse_data_exact (payload rest : List Nat) :
    parse_data payload.length (payload ++ rest) = .ok (payload, rest) := by
  simp [parse_data]

/-- Core frame computation: a syntactically well-formed frame parses down to
the checksum comparison, then either the checksum error or command assembly
on the payload. -/
theorem parse_btrfs_command_frame (L T CK : Nat) (payload rest : List Nat)
    (hlen : payload.length = L) (hL : L < 4294967296) (hT : T < 65536)
    (hCK : CK < 4294967296) :
    parse_btrfs_command (u32be L ++ u16be T ++ u32be CK ++ payload ++ rest) =
      (if payload.sum % 4294967296 = CK then
        (parse_btrfs_type T payload).map (fun c => some (c, rest))
      else
        .error (.InvalidChecksume CK (payload.sum % 4294967296))) := by
  have hne : (u32be L ++ u16be T ++ u32be CK ++ payload ++ rest).isEmpty = false := by
    simp [u32be]
  rw [parse_btrfs_command]
  rw [hne]
  simp only [Bool.false_eq_true, if_false, bind, Except.bind]
  simp only [List.append_assoc]
  rw [parse_u32_u32be L _ hL]
  dsimp only
  rw [parse_u16_u16be T _ hT]
  dsimp only
  rw [parse_u32_u32be CK _ hCK]
  dsimp only
  rw [← hlen, parse_data_exact payload rest]

/-- Helper: replacing one list element below the length bound. -/
theorem list_sum_set (l : List Nat) (i v : Nat) (h : i < l.length) :
    (l.set i v).sum + l.getD i 0 = l.sum + v := by
  induction l generalizing i with
  | nil => simp at h
  | cons a t ih =>
      cases i with
      | zero => simp [List.set, List.getD]; omega
      | succ j =>
          have hj : j < t.length := by simpa using h
          have := ih j hj
          simp only [List.set, List.sum_cons, List.getD_cons_succ]
          omega

theorem list_getD_lt (l : List Nat) (i : Nat) (h : i < l.length)
    (hb : ∀ b ∈ l, b < 256) : l.getD i 0 < 256 := by
  rw [List.getD_eq_getElem l 0 h]
  exact hb _ (List.getElem_mem h)

/-- Changing one payload byte changes the additive checksum modulo 2^32. -/
theorem sum_set_mod_ne (l : List Nat) (i v : Nat) (h : i < l.length)
    (hv : v < 256) (hb : ∀ b ∈ l, b < 256) (hne : v ≠ l.getD i 0) :
    (l.set i v).sum % 4294967296 ≠ l.sum % 4294967296 := by
  have h1 := list_sum_set l i v h
  have h2 := list_getD_lt l i h hb
  omega

/-- C5: a frame decodes past the checksum gate only if the declared u32
checksum equals the additive sum of the payload bytes modulo 2^32; on
mismatch it fails with InvalidChecksume carrying the declared then the
computed value; and changing any single payload byte of a valid frame makes
the checksum comparison fail. -/
theorem frame_checksum_spec (L T CK : Nat) (payload rest : List Nat)
    (hlen : payload.length = L) (hL : L < 4294967296) (hT : T < 65536)
    (hCK : CK < 4294967296) :
    (CK ≠ payload.sum % 4294967296 →
      parse_btrfs_command (u32be L ++ u16be T ++ u32be CK ++ payload ++ rest) =
        .error (.InvalidChecksume CK (payload.sum % 4294967296))) ∧
    (CK = payload.sum % 4294967296 →
      parse_btrfs_command (u32be L ++ u16be T ++ u32be CK ++ payload ++ rest) =
        (parse_btrfs_type T payload).map (fun c => some (c, rest))) ∧
    (∀ i v, i < payload.length → v < 256 → v ≠ payload.getD i 0 →
      (∀ b ∈ payload, b < 256) →
      parse_btrfs_command (u32be L ++ u16be T ++ u32be (payload.sum % 4294967296) ++
          payload.set i v ++ rest) =
        .error (.InvalidChecksume (payload.sum % 4294967296)
          ((payload.set i v).sum % 4294967296))) := by
  refine ⟨?_, ?_, ?_⟩
  · intro hne
    rw [parse_btrfs_command_frame L T CK payload rest hlen hL hT hCK]
    rw [if_neg (fun he => hne he.symm)]
  · intro he
    rw [parse_btrfs_command_frame L T CK payload rest hlen hL hT hCK]
    rw [if_pos he.symm]
  · intro i v hi hv hne hb
    have hlen2 : (payload.set i v).length = L := by
      rw [List.length_set]; exact hlen
    have hCK2 : payload.sum % 4294967296 < 4294967296 := Nat.mod_lt _ (by omega)
    rw [parse_btrfs_command_frame L T (payload.sum % 4294967296) (payload.set i v)
      rest hlen2 hL hT hCK2]
    rw [if_neg (sum_set_mod_ne payload i v hi hv hb hne)]

theorem frame_checksum_spec_witness :
    parse_btrfs_command (u32be 2 ++ u16be 21 ++ u32be 4 ++ [1, 2] ++ []) =
      .error (.InvalidChecksume 4 3) ∧
    parse_btrfs_command (u32be 2 ++ u16be 21 ++ u32be 3 ++ [1, 2] ++ []) =
      (parse_btrfs_type 21 [1, 2]).map (fun c => some (c, [])) ∧
    parse_btrfs_command (u32be 2 ++ u16be 21 ++ u32be 3 ++ [1, 2].set 0 7 ++ []) =
      .error (.InvalidChecksume 3 (([1, 2].set 0 7).sum % 4294967296)) := by
  refine ⟨?_, ?_, ?_⟩
  · exact (frame_checksum_spec 2 21 4 [1, 2] [] (by decide) (by decide) (by decide)
      (by decide)).1 (by decide)
  · exact (frame_checksum_spec 2 21 3 [1, 2] [] (by decide) (by decide) (by decide)
      (by decide)).2.1 (by decide)
  · exact (frame_checksum_spec 2 21 3 [1, 2] [] (by decide) (by decide) (by decide)
      (by decide)).2.2 0 7 (by decide) (by decide) (by decide) (by decide)

/-- C6: the TryFrom entry point slices source[0 .. 17] before any check, so
any input shorter than 17 bytes aborts the process (modelled none) instead
of returning a decode error; inputs of at least 17 bytes always produce a
result (an error or a command list), never an abort. -/
theorem try_from_short_input_aborts :
    btrfs_send_try_from [] = none ∧
    btrfs_send_try_from [0x62, 0x74, 0x72, 0x66, 0x73, 0x2d, 0x73, 0x74, 0x72,
      0x65, 0x61, 0x6d, 0x00, 0, 0, 0] = none ∧
    (∀ s : List Nat, 17 ≤ s.length → btrfs_send_try_from s ≠ none) := by
  refine ⟨rfl, rfl, ?_⟩
  intro s hs
  rw [btrfs_send_try_from, if_neg (by omega)]
  simp

theorem try_from_short_input_aborts_witness :
    btrfs_send_try_from (List.replicate 17 0) ≠ none :=
  try_from_short_input_aborts.2.2 (List.replicate 17 0) (by decide)

/-- C8: type 15 (WRITE) requires exactly the positional TLV list
[Path, Offset, Data]: any other arity fails with WrongNumberOfTlvs (actual,
3), a kind mismatch in a 3-TLV payload fails with UnexpectedTlv, a
conforming list yields Write, and the frame dispatcher routes type 15
payloads through exactly this assembly after TLV parsing. -/
theorem write_command_arity_spec :
    (∀ tlvs : List BtrfsSendTlv, tlvs.length ≠ 3 →
      parse_write_command tlvs = .error (.WrongNumberOfTlvs tlvs.length 3)) ∧
    (∀ t0 t1 t2 : BtrfsSendTlv,
      (∀ p o d, [t0, t1, t2] ≠ [.Path p, .Offset o, .Data d]) →
      parse_write_command [t0, t1, t2] = .error .UnexpectedTlv) ∧
    (∀ p o d, parse_write_command [.Path p, .Offset o, .Data d] =
      .ok (.Write p o d)) ∧
    (∀ data, parse_btrfs_type 15 data =
      Except.bind (parse_tlvs data) parse_write_command) := by
  refine ⟨?_, ?_, ?_, ?_⟩
  · intro tlvs h
    rcases tlvs with _ | ⟨a, _ | ⟨b, _ | ⟨c, _ | ⟨d, t⟩⟩⟩⟩ <;>
      first
      | rfl
      | (exact absurd rfl h)
  · intro t0 t1 t2 h
    cases t0 <;> try rfl
    rename_i p
    cases t1 <;> try rfl
    rename_i o
    cases t2 <;> try rfl
    rename_i d
    exact absurd rfl (h p o d)
  · intro p o d
    rfl
  · intro data
    cases h : parse_tlvs data <;>
      simp [parse_btrfs_type, h, bind, Except.bind]

theorem write_command_arity_spec_witness :
    parse_write_command [.Inode] = .error (.WrongNumberOfTlvs 1 3) ∧
    parse_write_command [.Inode, .Inode, .Inode] = .error .UnexpectedTlv ∧
    parse_write_command [.Path [97], .Offset 5, .Data [1, 2]] =
      .ok (.Write [97] 5 [1, 2]) ∧
    parse_btrfs_type 15 [] = Except.bind (parse_tlvs []) parse_write_command := by
  refine ⟨?_, ?_, ?_, ?_⟩
  · exact write_command_arity_spec.1 [.Inode] (by decide)
  · exact write_command_arity_spec.2.1 .Inode .Inode .Inode (by intro p o d h; cases h)
  · exact write_command_arity_spec.2.2.1 [97] 5 [1, 2]
  · exact write_command_arity_spec.2.2.2 []

/-- C9: an END frame (type 21, empty payload) decodes to the End command and
the loop then continues on the remaining bytes; decoding stops (with the
empty command list) exactly when the byte buffer is exhausted. -/
theorem end_frame_continues_decode :
    (∀ rest : List Nat,
      parse_commands ((u32be 0 ++ u16be 21 ++ u32be 0) ++ rest) =
        (parse_commands rest).map (fun cs => BtrfsSendCommand.End :: cs)) ∧
    parse_commands [] = .ok [] := by
  constructor
  · intro rest
    have hcmd : parse_btrfs_command ((u32be 0 ++ u16be 21 ++ u32be 0) ++ rest) =
        .ok (some (.End, rest)) := by
      have h := parse_btrfs_command_frame 0 21 0 [] rest rfl (by decide) (by decide)
        (by decide)
      simp only [List.append_assoc, List.nil_append, List.append_nil] at h ⊢
      rw [h]
      rfl
    rw [parse_commands_eq, hcmd]
    cases h : parse_commands rest <;> simp [h, Except.map]
  · rfl

/-- C1: the round-trip fails on the code: the spec-encoding of the single
command sequence [Rename a b] (TLV list [Path a, PathTo b]) decodes to
UnexpectedTlv rather than to the original sequence, because
parse_rename_command requires tlvs[0] to be both Path and PathTo. -/
theorem rename_roundtrip_fails :
    btrfs_send_try_from (encode_stream [.Rename [97] [98]]) =
      some (.error .UnexpectedTlv) ∧
    btrfs_send_try_from (encode_stream [.Rename [97] [98]]) ≠
      some (.ok { commands := [.Rename [97] [98]] }) := by
  constructor
  · decide
  · decide

/-- C7: process_write opens the target with File open — a read-only
descriptor — and never seeks, so it cannot succeed on any state: an existing
file yields EBADF from write(2), a missing one NotFound; the command's
offset does not even reach it (the WRITE arm passes only path and data).
The spec-modelled write_at shows what the claim expects at the failing
input. -/
theorem process_write_never_succeeds :
    (∀ (fs : Fs) (local_path work_bench data : List Nat) (r : Fs),
      process_write fs local_path work_bench data ≠ .ok r) ∧
    process_write ⟨[(path_join_bytes [119] [97], [1, 2, 3, 4, 5, 6, 7, 8])]⟩
        [97] [119] [9, 9] = .error .badFileDescriptor ∧
    write_at [1, 2, 3, 4, 5, 6, 7, 8] 5 [9, 9] = [1, 2, 3, 4, 5, 9, 9, 8] := by
  refine ⟨?_, by decide, by decide⟩
  intro fs local_path work_bench data r h
  simp only [process_write, bind, Except.bind] at h
  cases hf : file_open fs (path_join_bytes work_bench local_path) with
  | error e => rw [hf] at h; cases h
  | ok f =>
      rw [hf] at h
      have hm : f.mode = .readOnly := by
        simp only [file_open] at hf
        split at hf
        · cases hf; rfl
        · cases hf
      simp [handle_write, hm] at h

/-- C4: apply_opaque_whiteouts calls remove_file on every entry of the
marker's parent directory, which fails with EISDIR on a subdirectory and
aborts the layer application; with only regular-file children the directory
is fully cleared before the modification queue of the same layer is
unpacked. -/
theorem opaque_whiteout_fails_on_subdirectory :
    from_layer_to_snapshot
        [⟨["d", ".wh..wh..opq"], .file⟩, ⟨["d", "newfile"], .file⟩] []
        ⟨[(["d"], .directory), (["d", "sub"], .directory), (["d", "f"], .file)]⟩ =
      .error (.sys EISDIR) ∧
    from_layer_to_snapshot
        [⟨["d", ".wh..wh..opq"], .file⟩, ⟨["d", "newfile"], .file⟩] []
        ⟨[(["d"], .directory), (["d", "a"], .file), (["d", "b"], .file)]⟩ =
      .ok ⟨[(["d", "newfile"], .file), (["d"], .directory)]⟩ := by
  constructor
  · decide
  · decide

theorem import_go_all_eexist (env : ImportEnv) (container_name : String)
    (hl : ∀ n l p, env.create_layer_for_image n l p = .error (.sys EEXIST)) :
    ∀ (ls : List String) (last : String), ∃ names,
      import_go env container_name ls last = .ok names ∧
        names.length = ls.length := by
  intro ls
  induction ls with
  | nil => intro last; exact ⟨[], rfl, rfl⟩
  | cons layer rest ih =>
      intro last
      obtain ⟨names, hgo, hlen⟩ :=
        ih (if rest.isEmpty then container_name else layer)
      refine ⟨(if rest.isEmpty then container_name else layer) :: names, ?_,
        by simp [hlen]⟩
      simp only [import_go, bind, Except.bind]
      by_cases he : rest.isEmpty
      · rw [if_pos he] at hgo
        simp [layer_name, he, recover_from_eexist, hl, hgo]
      · rw [if_neg he] at hgo
        simp [layer_name, he, recover_from_eexist, hl, hgo]

/-- C10: recover_from_eexist maps exactly Ok and the EEXIST syscall error to
Ok and passes every other error through; at the import level, when every
create/snapshot step reports EEXIST the whole stack is still walked (one
created name per layer), while a non-EEXIST error from the first step
aborts the import with that error. -/
theorem eexist_swallowed_spec :
    (∀ r : Except ImportError Unit,
      recover_from_eexist r = .ok () ↔ r = .ok () ∨ r = .error (.sys EEXIST)) ∧
    (∀ (r : Except ImportError Unit) (e : ImportError),
      recover_from_eexist r = .error e ↔ r = .error e ∧ e ≠ .sys EEXIST) ∧
    (∀ (env : ImportEnv) (container_name : String) (stack : List String),
      (∀ n p, env.create_image_from_path n p = .error (.sys EEXIST)) →
      (∀ n l p, env.create_layer_for_image n l p = .error (.sys EEXIST)) →
      stack ≠ [] →
      ∃ names, import_from_layer_stack env container_name stack = .ok names ∧
        names.length = stack.length) ∧
    (∀ (env : ImportEnv) (container_name : String) (stack : List String)
        (e : ImportError), e ≠ .sys EEXIST →
      (∀ n p, env.create_image_from_path n p = .error e) →
      stack ≠ [] →
      import_from_layer_stack env container_name stack = .error e) := by
  refine ⟨?_, ?_, ?_, ?_⟩
  · intro r
    match r with
    | .ok () => simp [recover_from_eexist]
    | .error e =>
        simp only [recover_from_eexist]
        by_cases he : e = .sys EEXIST <;> simp [he]
  · intro r e
    match r with
    | .ok () => simp [recover_from_eexist]
    | .error e2 =>
        simp only [recover_from_eexist]
        by_cases he : e2 = .sys EEXIST <;> simp [he] <;> aesop
  · intro env container_name stack h1 h2 hne
    match hrev : stack.reverse with
    | [] => exact absurd (by simpa using congrArg List.reverse hrev) hne
    | first :: rest =>
        obtain ⟨names, hgo, hlen⟩ :=
          import_go_all_eexist env container_name h2 rest
            (if rest.isEmpty then container_name else first)
        refine ⟨(if rest.isEmpty then container_name else first) :: names, ?_, ?_⟩
        · simp only [import_from_layer_stack, hrev, bind, Except.bind]
          by_cases he : rest.isEmpty
          · rw [if_pos he] at hgo
            simp [layer_name, he, recover_from_eexist, h1, hgo]
          · rw [if_neg he] at hgo
            simp [layer_name, he, recover_from_eexist, h1, hgo]
        · have : stack.length = rest.length + 1 := by
            have := congrArg List.length hrev
            simpa [Nat.add_comm] using this
          simp [hlen, this]
  · intro env container_name stack e hne h1 hstack
    match hrev : stack.reverse with
    | [] => exact absurd (by simpa using congrArg List.reverse hrev) hstack
    | first :: rest =>
        simp only [import_from_layer_stack, hrev, bind, Except.bind]
        by_cases he : rest.isEmpty
        · simp [layer_name, he, recover_from_eexist, h1, hne]
        · simp [layer_name, he, recover_from_eexist, h1, hne]

theorem eexist_swallowed_spec_witness :
    recover_from_eexist (.error (.sys EEXIST)) = .ok () ∧
    (∃ names,
      import_from_layer_stack env_all_eexist "img" ["base", "child"] = .ok names ∧
        names.length = 2) ∧
    import_from_layer_stack env_denied "img" ["base", "child"] =
      .error (.other "denied") :=
  ⟨(eexist_swallowed_spec.1 _).mpr (Or.inr rfl),
   eexist_swallowed_spec.2.2.1 env_all_eexist "img" ["base", "child"]
     (fun _ _ => rfl) (fun _ _ _ => rfl) (by decide),
   eexist_swallowed_spec.2.2.2 env_denied "img" ["base", "child"]
     (.other "denied") (by decide) (fun _ _ => rfl) (by decide)⟩

/-- C2 counterexample: a SUBVOL-led transcript is NOT materialized from an
empty staging directory by replaying its commands — process_subvolume takes
the process_base_subvolume branch, copying the subvolume's own on-disk
entries and never replaying the subsequent Mkfile; the replay the claim
describes would have produced the snapshot-branch output instead. -/
theorem subvol_transcript_not_replayed :
    process_subvolume ⟨[.Subvol [97] (List.replicate 16 0) 1, .Mkfile [98]]⟩
        "vol" repo_c2 none =
      .ok (.baseCopy [.copy "e1", .copy "e2"]) ∧
    (process_snapshot ⟨[.Subvol [97] (List.replicate 16 0) 1, .Mkfile [98]]⟩
        "vol" repo_c2 none).map SubvolumeOutput.snapshotLayer ≠
      .ok (.baseCopy [.copy "e1", .copy "e2"]) := by
  constructor
  · decide
  · decide

theorem process_command_trace (repo : ImageRepositoryM) (name : String)
    (entries : List String) (hrd : repo.read_dir name = .ok entries)
    (c : BtrfsSendCommand) :
    process_command c name repo = .ok (replay_trace entries c) := by
  cases c <;>
    simp [process_command, replay_trace, process_base_subvolume, hrd, Except.map]

theorem process_commands_all_trace (repo : ImageRepositoryM) (name : String)
    (entries : List String) (hrd : repo.read_dir name = .ok entries) :
    ∀ cs : List BtrfsSendCommand,
      process_commands_all repo name cs =
        .ok ((cs.map (replay_trace entries)).join) := by
  intro cs
  induction cs with
  | nil => rfl
  | cons c rest ih =>
      simp [process_commands_all, process_command_trace repo name entries hrd,
        ih, bind, Except.bind]

/-- C2 amended: process_subvolume branches on whether the transcript
contains a SUBVOL record anywhere — with one, it only copies the named
subvolume's own repository-directory entries into staging (no command
replay, no layer files); without one, it replays every command in order,
where a SNAPSHOT record copies the named subvolume's own entries (not the
parent's) and the layer files carry the passed parent id. -/
theorem process_subvolume_branch_spec (repo : ImageRepositoryM)
    (volume : BtrfsSend) (name : String) (parent : Option String)
    (entries : List String) (hrd : repo.read_dir name = .ok entries) :
    ((volume.commands.find? is_subvolume).isSome = true →
      process_subvolume volume name repo parent =
        .ok (.baseCopy (entries.map ReplayAction.copy))) ∧
    ((volume.commands.find? is_subvolume).isNone = true →
      process_subvolume volume name repo parent =
        .ok (.snapshotLayer
          { actions := (volume.commands.map (replay_trace entries)).join,
            json_parent := parent })) := by
  constructor
  · intro hsome
    have hni : (volume.commands.find? is_subvolume).isNone = false := by
      cases h : volume.commands.find? is_subvolume <;> simp [h] at hsome ⊢
    simp [process_subvolume, hni, process_base_subvolume, hrd, Except.map]
  · intro hnone
    simp [process_subvolume, hnone, process_snapshot,
      process_commands_all_trace repo name entries hrd, Except.map]

theorem process_subvolume_branch_spec_witness :
    process_subvolume ⟨[.Subvol [97] (List.replicate 16 0) 1, .Mkfile [98]]⟩
        "vol" repo_c2 none = .ok (.baseCopy [.copy "e1", .copy "e2"]) ∧
    process_subvolume
        ⟨[.Snapshot [97] (List.replicate 16 0) 1 (List.replicate 16 0) 2,
          .Mkfile [98]]⟩ "vol" repo_c2 (some "parent0") =
      .ok (.snapshotLayer
        { actions := [.copy "e1", .copy "e2", .apply (.Mkfile [98])],
          json_parent := some "parent0" }) := by
  constructor
  · exact (process_subvolume_branch_spec repo_c2
      ⟨[.Subvol [97] (List.replicate 16 0) 1, .Mkfile [98]]⟩ "vol" none
      ["e1", "e2"] (by decide)).1 (by decide)
  · exact (process_subvolume_branch_spec repo_c2
      ⟨[.Snapshot [97] (List.replicate 16 0) 1 (List.replicate 16 0) 2,
        .Mkfile [98]]⟩ "vol" (some "parent0")
      ["e1", "e2"] (by decide)).2 (by decide)

theorem process_subvolume_parent_of (volume : BtrfsSend) (name : String)
    (repo : ImageRepositoryM) (parent : Option String) (l : LayerFiles)
    (h : process_subvolume volume name repo parent = .ok (.snapshotLayer l)) :
    l.json_parent = parent := by
  simp only [process_subvolume] at h
  split at h
  · simp only [process_snapshot, Except.map] at h
    cases hm : process_commands_all repo name volume.commands with
    | error e => rw [hm] at h; cases h
    | ok actions =>
        rw [hm] at h
        cases h
        rfl
  · simp only [process_base_subvolume, Except.map] at h
    cases hr : repo.read_dir name with
    | error e => rw [hr] at h; cases h
    | ok entries => rw [hr] at h; cases h

theorem collect_sends_fst (repo : ImageRepositoryM) :
    ∀ (infos : List SubvolInfo) (stack : List (String × BtrfsSend)),
      collect_sends repo infos = .ok stack →
      stack.map Prod.fst = infos.map SubvolInfo.uuid := by
  intro infos
  induction infos with
  | nil =>
      intro stack h
      cases h
      rfl
  | cons i rest ih =>
      intro stack h
      simp only [collect_sends, bind, Except.bind] at h
      cases hs : repo.send i.name with
      | error e => rw [hs] at h; simp [Except.map] at h
      | ok v =>
          rw [hs] at h
          simp only [Except.map] at h
          cases hm : collect_sends repo rest with
          | error e => rw [hm] at h; cases h
          | ok more =>
              rw [hm] at h
              cases h
              simp [ih more hm]

theorem export_loop_spec (repo : ImageRepositoryM) :
    ∀ (stack : List (String × BtrfsSend)) (parent : Option String)
      (layers : List (String × SubvolumeOutput)),
      export_loop repo stack parent = .ok layers →
      layers.map Prod.fst = stack.map Prod.fst ∧
      (∀ u l, layers[0]? = some (u, .snapshotLayer l) → l.json_parent = parent) ∧
      (∀ j u l, layers[j + 1]? = some (u, .snapshotLayer l) →
        l.json_parent = (layers[j]?).map Prod.fst) := by
  intro stack
  induction stack with
  | nil =>
      intro parent layers h
      cases h
      refine ⟨rfl, ?_, ?_⟩
      · intro u l h0
        simp at h0
      · intro j u l hj
        simp at hj
  | cons hd rest ih =>
      obtain ⟨uuid, volume⟩ := hd
      intro parent layers h
      simp only [export_loop, bind, Except.bind] at h
      cases hp : process_subvolume volume uuid repo parent with
      | error e => rw [hp] at h; cases h
      | ok out =>
          rw [hp] at h
          cases hl : export_loop repo rest (some uuid) with
          | error e => rw [hl] at h; cases h
          | ok more =>
              rw [hl] at h
              cases h
              obtain ⟨hmap, hhead, hshift⟩ := ih (some uuid) more hl
              refine ⟨by simp [hmap], ?_, ?_⟩
              · intro u l h0
                simp only [List.getElem?_cons_zero, Option.some.injEq,
                  Prod.mk.injEq] at h0
                exact process_subvolume_parent_of volume uuid repo parent l
                  (h0.2 ▸ hp)
              · intro j u l hj
                cases j with
                | zero =>
                    simp only [List.getElem?_cons_succ,
                      List.getElem?_cons_zero] at hj ⊢
                    exact hhead u l hj
                | succ k =>
                    simp only [List.getElem?_cons_succ] at hj ⊢
                    exact hshift k u l hj

/-- C3 amended: export materializes the lineage exactly in the order
get_btrfs_subvolume_stack returns it — the named image first, the base last,
with no base-first normalization — and threads the parent field so the
first-processed (newest) layer gets parent None and every later layer's
json parent is the uuid of the layer processed immediately before it. -/
theorem export_stack_order_parent_threading (repo : ImageRepositoryM)
    (name : String) (fuel : Nat) (infos : List SubvolInfo)
    (layers : List (String × SubvolumeOutput))
    (hstack : get_btrfs_subvolume_stack repo name fuel = some (.ok infos))
    (hexp : export_image repo name fuel = some (.ok layers)) :
    layers.map Prod.fst = infos.map SubvolInfo.uuid ∧
    (∀ u l, layers[0]? = some (u, .snapshotLayer l) → l.json_parent = none) ∧
    (∀ j u l, layers[j + 1]? = some (u, .snapshotLayer l) →
      l.json_parent = (layers[j]?).map Prod.fst) := by
  simp only [export_image, hstack, Option.some.injEq, bind, Except.bind] at hexp
  cases hc : collect_sends repo infos with
  | error e => rw [hc] at hexp; cases hexp
  | ok stack =>
      rw [hc] at hexp
      obtain ⟨hmap, hhead, hshift⟩ := export_loop_spec repo stack none layers hexp
      exact ⟨hmap.trans (collect_sends_fst repo infos stack hc), hhead, hshift⟩

/-- C3 counterexample: on the child-over-base chain, export materializes the
newest layer (the named image) FIRST with parent None and the base LAST with
parent "cu" — not base-first with a parentless base, as the claim states. -/
theorem export_processes_newest_first :
    export_image repo_c3 "child" 4 =
      some (.ok
        [("cu", .snapshotLayer
            { actions := [.apply (.Mkfile [99])], json_parent := none }),
         ("bu", .snapshotLayer
            { actions := [.apply (.Mkfile [98])], json_parent := some "cu" })]) ∧
    export_image repo_c3 "child" 4 ≠
      some (.ok
        [("bu", .snapshotLayer
            { actions := [.apply (.Mkfile [98])], json_parent := none }),
         ("cu", .snapshotLayer
            { actions := [.apply (.Mkfile [99])], json_parent := some "bu" })]) := by
  constructor
  · decide
  · decide

theorem export_stack_order_parent_threading_witness :
    [("cu", SubvolumeOutput.snapshotLayer
        { actions := [.apply (.Mkfile [99])], json_parent := none }),
     ("bu", SubvolumeOutput.snapshotLayer
        { actions := [.apply (.Mkfile [98])], json_parent := some "cu" })].map
      Prod.fst = [info_child, info_base].map SubvolInfo.uuid :=
  (export_stack_order_parent_threading repo_c3 "child" 4 [info_child, info_base]
    [("cu", .snapshotLayer
        { actions := [.apply (.Mkfile [99])], json_parent := none }),
     ("bu", .snapshotLayer
        { actions := [.apply (.Mkfile [98])], json_parent := some "cu" })]
    (by decide) (by decide)).1
